import Mathlib

/-!
Verification models of the FlashSail browser smoke-test scripts
(test-frontend.py, flashsell-web/test_responsive.py and
flashsell-web/test_ui_design.py).

The browser, the frontend under test and the backend are external
collaborators.  Each script is therefore modelled as a pure function of
an environment record that fixes every observation the script makes
through the automation driver (DOM query answers, HTTP statuses,
console events, login outcome).  The value of the function is the
ordered sequence of check outcomes and diagnostic events the script
records, together with its exit behaviour and whether the explicit
browser-close call is reached.
-/

/-- Boolean test that the character list n occurs as a contiguous
segment of the second list.  Auxiliary for strContains. -/
def listSub (n : List Char) : List Char → Bool
  | [] => n.isPrefixOf []
  | c :: rest => n.isPrefixOf (c :: rest) || listSub n rest

/-- Model of the Python substring operator (needle in hay), used by
the scripts for checks such as membership of a colour keyword in a
computed style string. -/
def strContains (hay needle : String) : Bool :=
  listSub needle.toList hay.toList

/-- Model of the Python call replacing every space of a string by an
underscore (single-character pattern and replacement). -/
def underscoreSpaces (s : String) : String :=
  String.mk (s.toList.map fun c => if c = ' ' then '_' else c)

/-- One decimal digit character (least significant digit of n). -/
def digitChar (n : Nat) : Char := Char.ofNat (48 + n % 10)

/-- Model of the strftime call with format %Y%m%d_%H%M%S on line 53 of
test_responsive.py and line 176 of test_ui_design.py: a four digit
year, then two digit month and day, an underscore, then two digit
hour, minute and second, each field zero padded. -/
def strftimeTs (y mo d h mi s : Nat) : String :=
  String.mk [digitChar (y / 1000), digitChar (y / 100), digitChar (y / 10), digitChar y,
             digitChar (mo / 10), digitChar mo, digitChar (d / 10), digitChar d, '_',
             digitChar (h / 10), digitChar h, digitChar (mi / 10), digitChar mi,
             digitChar (s / 10), digitChar s]

/-- The YYYYMMDD_HHMMSS shape: fifteen characters, all decimal digits
except an underscore at index 8. -/
def isTsPattern (t : String) : Bool :=
  t.length == 15 &&
  (t.toList.enum.all fun ic => if ic.1 == 8 then ic.2 == '_' else ic.2.isDigit)

/-- One recorded (label, passed) pair, as appended to the results list
of the aggregate script. -/
structure CheckResult where
  label : String
  passed : Bool
deriving DecidableEq

namespace Frontend

/-- Environment of one run of test-frontend.py: every observation the
script makes through the driver.  Console errors are split by the
phase in which the page emitted them (the initial goto of test 1, the
mobile-viewport phase of test 4, the reload of test 5); the listener
installed before the first navigation sees their concatenation.
crashAt = some k means an unhandled exception interrupted test k
(1-based) before that test appended its results; the exception raised
inside the request of test 3 is caught locally and is instead modelled
by healthStatus = none. -/
structure Env where
  finalUrl : String
  navCount : Nat
  loginBtnCount : Nat
  healthStatus : Option Nat
  gotoErrors : List String
  mobileErrors : List String
  reloadErrors : List String
  reloadResponses : List (String × Nat)
  crashAt : Option Nat

/-- Test 1: the home page visit records whether the final URL is the
expected root URL. -/
def step1 (env : Env) : List CheckResult :=
  [⟨"首页访问", env.finalUrl == "http://localhost:3000/"⟩]

/-- Test 2: presence of the navigation bar and of the login or
register control. -/
def step2 (env : Env) : List CheckResult :=
  [⟨"导航栏", decide (0 < env.navCount)⟩,
   ⟨"认证按钮", decide (0 < env.loginBtnCount)⟩]

/-- Test 3: the API proxy check passes exactly when the health
endpoint answered with status 200; a request exception (none) is
caught locally and recorded as a failure. -/
def step3 (env : Env) : List CheckResult :=
  [⟨"API 代理", match env.healthStatus with
      | some s => s == 200
      | none => false⟩]

/-- Test 4: the responsive-design step only resizes and screenshots,
recording an unconditional pass. -/
def step4 (_env : Env) : List CheckResult :=
  [⟨"响应式设计", true⟩]

/-- Test 5: resource loading passes when no response during the reload
had status at least 400. -/
def step5 (env : Env) : List CheckResult :=
  [⟨"资源加载", (env.reloadResponses.filter fun r => decide (400 ≤ r.2)).isEmpty⟩]

/-- Test 6: the JavaScript check reads the accumulated console-error
list of the listener registered before the first navigation. -/
def step6 (env : Env) : List CheckResult :=
  [⟨"JavaScript 无错误", (env.gotoErrors ++ env.mobileErrors ++ env.reloadErrors).isEmpty⟩]

/-- The six tests of the try block, in source order. -/
def allSteps (env : Env) : List (List CheckResult) :=
  [step1 env, step2 env, step3 env, step4 env, step5 env, step6 env]

/-- Results list at the end of the run: all six tests when nothing
throws; otherwise the results of the completed tests followed by the
failure entry appended by the top-level exception handler. -/
def runResults (env : Env) : List CheckResult :=
  match env.crashAt with
  | none => (allSteps env).flatten
  | some k => ((allSteps env).take (k - 1)).flatten ++ [⟨"测试执行", false⟩]

/-- Exit code of the script: the count of passed results compared with
the total, 0 on equality and 1 otherwise. -/
def exitCode (env : Env) : Nat :=
  let passed := ((runResults env).filter fun r => r.passed).length
  let total := (runResults env).length
  if passed == total then 0 else 1

/-- The browser close call sits in the finally clause of the run
(lines 119-120), so it executes on the normal path and on every
exceptional path alike; the flag is constant precisely because the
source makes the close unconditional. -/
def browserClosed (_env : Env) : Bool := true

/-- The recorded outcome of the check with the given label. -/
def resultFor (l : String) (rs : List CheckResult) : Option Bool :=
  (rs.find? fun r => r.label == l).map fun r => r.passed

end Frontend

namespace Responsive

/-- A viewport size entry of the device table. -/
structure Size where
  width : Nat
  height : Nat
deriving DecidableEq

/-- DEVICE_SIZES of test_responsive.py, in source order. -/
def DEVICE_SIZES : List (String × Size) :=
  [("iPhone SE", ⟨375, 667⟩), ("iPhone 12", ⟨390, 844⟩),
   ("iPad", ⟨768, 1024⟩), ("iPad Pro", ⟨1024, 1366⟩),
   ("Desktop", ⟨1440, 900⟩), ("Large Desktop", ⟨1920, 1080⟩)]

/-- A route entry of the page table. -/
structure PageSpec where
  url : String
  name : String
deriving DecidableEq

/-- PAGES_TO_TEST of test_responsive.py, in source order. -/
def PAGES_TO_TEST : List PageSpec :=
  [⟨"/", "Home"⟩, ⟨"/profile", "Profile"⟩, ⟨"/market", "Market"⟩,
   ⟨"/subscription", "Subscription"⟩, ⟨"/hot-products", "HotProducts"⟩,
   ⟨"/favorites", "Favorites"⟩]

/-- Fields of a bounding-box answer; the script reads a missing field
as 0 through the Python expression (box field or 0). -/
structure BBox where
  width : Option Nat
  height : Option Nat
deriving DecidableEq

/-- What the browser presents for one page under one viewport: the
body scroll width, the landmark visibilities, the card data and the
per-button bounding boxes (none when bounding_box returned nothing). -/
structure PageState where
  scrollWidth : Nat
  sidebarVisible : Bool
  mainVisible : Bool
  mainWidth : Nat
  cardCount : Nat
  cardWidth : Nat
  buttons : List (Option BBox)

/-- Environment of a responsive run: the login outcome and the page
state the browser presents for each device label and route. -/
structure Env where
  loginOk : Bool
  view : String → String → PageState

/-- The ordered records the responsive script emits; each constructor
corresponds to one printed check outcome or side effect. -/
inductive Event where
  | visit (device page : String)
  | scrollCheck (passed : Bool) (scrollWidth viewportWidth : Nat)
  | navSeen (mobileBreakpoint : Bool)
  | mainSeen (width : Nat)
  | cardsSeen (count width : Nat)
  | touchTarget (smallCount : Nat)
  | shot (name : String)
  | loginPassed
  | loginWarning
deriving DecidableEq

/-- Screenshot file name built on line 125: the device label with
spaces replaced by underscores, the page label and the run timestamp. -/
def screenshotName (device page ts : String) : String :=
  "responsive_" ++ underscoreSpaces device ++ "_" ++ page ++ "_" ++ ts ++ ".png"

/-- Count of undersized touch targets among the first five buttons
that have a bounding box (lines 109-117): a button counts when its
width or its height, read with a missing value as 0, is below 44. -/
def smallButtons (btns : List (Option BBox)) : Nat :=
  (((btns.take 5).filterMap id).filter fun b =>
    decide (b.width.getD 0 < 44) || decide (b.height.getD 0 < 44)).length

/-- The per-page check routine (lines 66-127) on a single device/page
pair, as the ordered list of records it emits: the visit banner, the
horizontal-scroll check (fail exactly when the scroll width exceeds
the viewport width plus the 10 pixel tolerance), the conditional
landmark and card diagnostics, the touch-target count when the
viewport width is at most 480, and finally the screenshot. -/
def checkPage (device : String) (size : Size) (pg : PageSpec)
    (st : PageState) (ts : String) : List Event :=
  [Event.visit device pg.name]
  ++ [if size.width + 10 < st.scrollWidth
      then Event.scrollCheck false st.scrollWidth size.width
      else Event.scrollCheck true st.scrollWidth size.width]
  ++ (if st.sidebarVisible then [Event.navSeen (size.width < 768)] else [])
  ++ (if st.mainVisible then [Event.mainSeen st.mainWidth] else [])
  ++ (if 0 < st.cardCount then [Event.cardsSeen st.cardCount st.cardWidth] else [])
  ++ (if size.width ≤ 480 then [Event.touchTarget (smallButtons st.buttons)] else [])
  ++ [Event.shot (screenshotName device pg.name ts)]

/-- The matrix loop of lines 56-127: device loop outer, page loop
inner, one invocation of the per-page routine per pair. -/
def runEvents (env : Env) (ts : String) : List Event :=
  DEVICE_SIZES.flatMap fun d =>
    PAGES_TO_TEST.flatMap fun pg =>
      checkPage d.1 d.2 pg (env.view d.1 pg.url) ts

/-- Login step of lines 37-51: the bounded wait for the authenticated
route sits in a try block whose handler records a warning, so both
outcomes fall through to the matrix. -/
def loginEvents (ok : Bool) : List Event :=
  if ok then [Event.loginPassed] else [Event.loginWarning]

/-- A whole responsive run: the login step followed by the full
device/page matrix. -/
def runResponsive (env : Env) (ts : String) : List Event :=
  loginEvents env.loginOk ++ runEvents env ts

/-- The final summary of lines 134-136: devices tested, pages tested
and total screenshots. -/
def summary : Nat × Nat × Nat :=
  (DEVICE_SIZES.length, PAGES_TO_TEST.length,
   DEVICE_SIZES.length * PAGES_TO_TEST.length)

/-- Recognises the screenshot record. -/
def isShot : Event → Bool
  | .shot _ => true
  | _ => false

/-- Recognises the horizontal-scroll record. -/
def isScrollCheck : Event → Bool
  | .scrollCheck _ _ _ => true
  | _ => false

/-- Recognises a failed horizontal-scroll record. -/
def isScrollFail : Event → Bool
  | .scrollCheck p _ _ => !p
  | _ => false

/-- Recognises the touch-target record. -/
def isTouch : Event → Bool
  | .touchTarget _ => true
  | _ => false

/-- The device/page pair of a visit banner. -/
def visitOf : Event → Option (String × String)
  | .visit d p => some (d, p)
  | _ => none

/-- The file name of a screenshot record. -/
def shotOf : Event → Option String
  | .shot n => some n
  | _ => none

end Responsive

namespace UiDesign

/-- Environment of one run of test_ui_design.py: every answer the
script reads from the driver, in particular the computed body
background colour, the visibility answers, the element counts and the
class attribute of the export button (already defaulted to the empty
string when the attribute was absent). -/
structure Env where
  bgColor : String
  formCardVisible : Bool
  logoVisible : Bool
  loginOk : Bool
  homeHeaderVisible : Bool
  homeCardCount : Nat
  orangeCount : Nat
  profileHeaderVisible : Bool
  profileTabCount : Nat
  activeTabOrange : Bool
  marketHeaderVisible : Bool
  filterCardVisible : Bool
  exportBtnVisible : Bool
  exportBtnClasses : String
  planCount : Nat
  hotHeaderVisible : Bool
  favTabCount : Nat
  clickableCount : Nat

/-- The records the UI-design script emits, one constructor per
printed outcome or side effect. -/
inductive UEvent where
  | bgOk
  | cardOk
  | logoOk
  | focusInfo
  | loginPassed
  | loginWarning
  | homeHeader (visible : Bool)
  | homeCards (n : Nat)
  | homeCardsOk
  | orangeTheme (n : Nat)
  | profileHeaderOk
  | profileTabsOk
  | activeTab (orange : Bool)
  | marketHeaderOk
  | filterCardOk
  | exportStyled
  | planCards (n : Nat)
  | planCardsOk
  | hotHeaderOk
  | favTabsOk
  | clickable (n : Nat)
  | shot (path : String)
deriving DecidableEq

/-- One statement of the script: an unconditional print, a print
guarded by a visibility answer, an if/else print, or a hard assert. -/
inductive Step where
  | emit (e : UEvent)
  | emitIf (c : Bool) (e : UEvent)
  | emitEither (c : Bool) (a b : UEvent)
  | check (c : Bool)

/-- The statement sequence of test_ui_design.py in source order; the
check entries are its hard assert statements (lines 25, 30, 35, 82,
98, 103, 125, 144 and 164). -/
def steps (env : Env) (ts : String) : List Step :=
  [Step.check (strContains env.bgColor "rgb(15, 23, 42)" || strContains env.bgColor "slate"),
   Step.emit UEvent.bgOk,
   Step.check env.formCardVisible,
   Step.emit UEvent.cardOk,
   Step.check env.logoVisible,
   Step.emit UEvent.logoOk,
   Step.emit UEvent.focusInfo,
   Step.emitEither env.loginOk UEvent.loginPassed UEvent.loginWarning,
   Step.emitEither env.homeHeaderVisible (UEvent.homeHeader true) (UEvent.homeHeader false),
   Step.emit (UEvent.homeCards env.homeCardCount),
   Step.check (decide (0 < env.homeCardCount)),
   Step.emit UEvent.homeCardsOk,
   Step.emit (UEvent.orangeTheme env.orangeCount),
   Step.check env.profileHeaderVisible,
   Step.emit UEvent.profileHeaderOk,
   Step.check (decide (2 ≤ env.profileTabCount)),
   Step.emit UEvent.profileTabsOk,
   Step.emitEither env.activeTabOrange (UEvent.activeTab true) (UEvent.activeTab false),
   Step.emitIf env.marketHeaderVisible UEvent.marketHeaderOk,
   Step.check env.filterCardVisible,
   Step.emit UEvent.filterCardOk,
   Step.emitIf (env.exportBtnVisible &&
     (strContains env.exportBtnClasses.toLower "gradient" ||
      strContains env.exportBtnClasses.toLower "orange")) UEvent.exportStyled,
   Step.emit (UEvent.planCards env.planCount),
   Step.check (decide (0 < env.planCount)),
   Step.emit UEvent.planCardsOk,
   Step.emitIf env.hotHeaderVisible UEvent.hotHeaderOk,
   Step.check (decide (2 ≤ env.favTabCount)),
   Step.emit UEvent.favTabsOk,
   Step.emit (UEvent.clickable env.clickableCount),
   Step.emit (UEvent.shot ("/tmp/flashsell_home_" ++ ts ++ ".png")),
   Step.emit (UEvent.shot ("/tmp/flashsell_profile_" ++ ts ++ ".png"))]

/-- Runs the statements in order; a failed assert raises, truncating
everything after it, and only a run that reaches the end of the list
performs the straight-line browser close of line 190. -/
def execSteps : List Step → List UEvent × Bool
  | [] => ([], true)
  | Step.emit e :: r =>
      let p := execSteps r
      (e :: p.1, p.2)
  | Step.emitIf c e :: r =>
      let p := execSteps r
      ((if c then [e] else []) ++ p.1, p.2)
  | Step.emitEither c a b :: r =>
      let p := execSteps r
      ((if c then a else b) :: p.1, p.2)
  | Step.check c :: r =>
      if c then execSteps r else ([], false)

/-- One whole run of test_ui_design.py: the emitted records and
whether the browser close was reached. -/
def uiRun (env : Env) (ts : String) : List UEvent × Bool :=
  execSteps (steps env ts)

/-- Conjunction of the hard assert conditions of the script, in
source order. -/
def assertsHold (env : Env) : Bool :=
  (strContains env.bgColor "rgb(15, 23, 42)" || strContains env.bgColor "slate") &&
  (env.formCardVisible &&
  (env.logoVisible &&
  (decide (0 < env.homeCardCount) &&
  (env.profileHeaderVisible &&
  (decide (2 ≤ env.profileTabCount) &&
  (env.filterCardVisible &&
  (decide (0 < env.planCount) &&
  decide (2 ≤ env.favTabCount))))))))

/-- All assert conditions that occur in a statement list, conjoined in
order. -/
def stepsOk : List Step → Bool
  | [] => true
  | Step.check c :: r => c && stepsOk r
  | Step.emit _ :: r => stepsOk r
  | Step.emitIf _ _ :: r => stepsOk r
  | Step.emitEither _ _ _ :: r => stepsOk r

end UiDesign

/-- A concrete page state used by the witness runs. -/
def samplePage : Responsive.PageState :=
  { scrollWidth := 300, sidebarVisible := true, mainVisible := true,
    mainWidth := 300, cardCount := 2, cardWidth := 140,
    buttons := [some ⟨some 40, some 50⟩, none, some ⟨some 50, some 50⟩] }

/-- A concrete responsive environment with a failed login. -/
def sampleREnv : Responsive.Env :=
  { loginOk := false, view := fun _ _ => samplePage }

/-- A concrete aggregate-script environment on a healthy deployment. -/
def sampleFEnv : Frontend.Env :=
  { finalUrl := "http://localhost:3000/", navCount := 1, loginBtnCount := 2,
    healthStatus := some 200, gotoErrors := [], mobileErrors := [],
    reloadErrors := [], reloadResponses := [], crashAt := none }

/-- A concrete UI-design environment on which every hard assert
passes. -/
def sampleUEnv : UiDesign.Env :=
  { bgColor := "rgb(15, 23, 42)", formCardVisible := true, logoVisible := true,
    loginOk := false, homeHeaderVisible := true, homeCardCount := 3,
    orangeCount := 4, profileHeaderVisible := true, profileTabCount := 2,
    activeTabOrange := true, marketHeaderVisible := true,
    filterCardVisible := true, exportBtnVisible := true,
    exportBtnClasses := "bg-gradient", planCount := 3, hotHeaderVisible := true,
    favTabCount := 2, clickableCount := 10 }

/-- The healthy aggregate environment with the health endpoint
answering 503. -/
def sickFEnv : Frontend.Env := { sampleFEnv with healthStatus := some 503 }

/-- The healthy aggregate environment with an unhandled exception
interrupting test 2. -/
def crashFEnv : Frontend.Env := { sampleFEnv with crashAt := some 2 }

/-- The healthy aggregate environment with one console error emitted
during the initial navigation. -/
def errFEnv : Frontend.Env :=
  { sampleFEnv with gotoErrors := ["ReferenceError: x is not defined"] }

/-! Helper lemmas. -/

theorem countP_ite_one {α : Type} (p : α → Bool) (c : Prop) [Decidable c] (e : α) :
    (if c then [e] else []).countP p = if c then (if p e then 1 else 0) else 0 := by
  split <;> simp [List.countP_cons]

theorem filter_ite_one {α : Type} (p : α → Bool) (c : Prop) [Decidable c] (e : α) :
    (if c then [e] else []).filter p = if c then (if p e then [e] else []) else [] := by
  split <;> simp [List.filter_cons]

theorem flatMap_one {α β : Type} (l : List α) (f : α → β) :
    (l.flatMap fun x => [f x]) = l.map f := by
  induction l with
  | nil => rfl
  | cons a t ih => simp [List.flatMap_cons, ih]

theorem filterMap_ite_one {α β : Type} (f : α → Option β) (c : Prop) [Decidable c] (e : α) :
    (if c then [e] else []).filterMap f = if c then (f e).toList else [] := by
  split <;> cases h : f e <;> simp [List.filterMap_cons, h]

theorem countP_flatMap {α β : Type} (l : List α) (f : α → List β) (p : β → Bool) :
    (l.flatMap f).countP p = (l.map fun a => (f a).countP p).sum := by
  induction l with
  | nil => rfl
  | cons a t ih => simp [List.flatMap_cons, List.countP_append, ih]

theorem filterMap_flatMap {α β γ : Type} (l : List α) (f : α → List β) (g : β → Option γ) :
    (l.flatMap f).filterMap g = l.flatMap fun a => (f a).filterMap g := by
  induction l with
  | nil => rfl
  | cons a t ih => simp [List.flatMap_cons, List.filterMap_append, ih]

theorem checkPage_shot_count (d : String) (sz : Responsive.Size) (pg : Responsive.PageSpec)
    (st : Responsive.PageState) (ts : String) :
    (Responsive.checkPage d sz pg st ts).countP Responsive.isShot = 1 := by
  by_cases hsc : sz.width + 10 < st.scrollWidth <;>
    simp [Responsive.checkPage, List.countP_append, countP_ite_one, hsc,
      Responsive.isShot, List.countP_cons]

theorem checkPage_scroll_count (d : String) (sz : Responsive.Size) (pg : Responsive.PageSpec)
    (st : Responsive.PageState) (ts : String) :
    (Responsive.checkPage d sz pg st ts).countP Responsive.isScrollCheck = 1 := by
  by_cases hsc : sz.width + 10 < st.scrollWidth <;>
    simp [Responsive.checkPage, List.countP_append, countP_ite_one, hsc,
      Responsive.isScrollCheck, List.countP_cons]

theorem checkPage_visits (d : String) (sz : Responsive.Size) (pg : Responsive.PageSpec)
    (st : Responsive.PageState) (ts : String) :
    (Responsive.checkPage d sz pg st ts).filterMap Responsive.visitOf = [(d, pg.name)] := by
  by_cases hsc : sz.width + 10 < st.scrollWidth <;>
    simp [Responsive.checkPage, List.filterMap_append, filterMap_ite_one, hsc,
      Responsive.visitOf, List.filterMap_cons]

theorem checkPage_shots (d : String) (sz : Responsive.Size) (pg : Responsive.PageSpec)
    (st : Responsive.PageState) (ts : String) :
    (Responsive.checkPage d sz pg st ts).filterMap Responsive.shotOf
      = [Responsive.screenshotName d pg.name ts] := by
  by_cases hsc : sz.width + 10 < st.scrollWidth <;>
    simp [Responsive.checkPage, List.filterMap_append, filterMap_ite_one, hsc,
      Responsive.shotOf, List.filterMap_cons]

theorem runEvents_shot_count (env : Responsive.Env) (ts : String) :
    (Responsive.runEvents env ts).countP Responsive.isShot = 36 := by
  simp [Responsive.runEvents, countP_flatMap, checkPage_shot_count,
    Responsive.DEVICE_SIZES, Responsive.PAGES_TO_TEST]

theorem runEvents_scroll_count (env : Responsive.Env) (ts : String) :
    (Responsive.runEvents env ts).countP Responsive.isScrollCheck = 36 := by
  simp [Responsive.runEvents, countP_flatMap, checkPage_scroll_count,
    Responsive.DEVICE_SIZES, Responsive.PAGES_TO_TEST]

theorem runEvents_visits (env : Responsive.Env) (ts : String) :
    (Responsive.runEvents env ts).filterMap Responsive.visitOf
      = Responsive.DEVICE_SIZES.flatMap fun dv =>
          Responsive.PAGES_TO_TEST.map fun pg => (dv.1, pg.name) := by
  simp [Responsive.runEvents, filterMap_flatMap, checkPage_visits, flatMap_one]

theorem runEvents_shots (env : Responsive.Env) (ts : String) :
    (Responsive.runEvents env ts).filterMap Responsive.shotOf
      = Responsive.DEVICE_SIZES.flatMap fun dv =>
          Responsive.PAGES_TO_TEST.map fun pg => Responsive.screenshotName dv.1 pg.name ts := by
  simp [Responsive.runEvents, filterMap_flatMap, checkPage_shots, flatMap_one]

theorem runResults_of_no_crash (env : Frontend.Env) (hc : env.crashAt = none) :
    Frontend.runResults env =
      [⟨"首页访问", env.finalUrl == "http://localhost:3000/"⟩,
       ⟨"导航栏", decide (0 < env.navCount)⟩,
       ⟨"认证按钮", decide (0 < env.loginBtnCount)⟩,
       ⟨"API 代理", match env.healthStatus with | some s => s == 200 | none => false⟩,
       ⟨"响应式设计", true⟩,
       ⟨"资源加载", (env.reloadResponses.filter fun r => decide (400 ≤ r.2)).isEmpty⟩,
       ⟨"JavaScript 无错误", (env.gotoErrors ++ env.mobileErrors ++ env.reloadErrors).isEmpty⟩] := by
  simp [Frontend.runResults, hc, Frontend.allSteps, Frontend.step1, Frontend.step2,
    Frontend.step3, Frontend.step4, Frontend.step5, Frontend.step6]

theorem execSteps_completed (l : List UiDesign.Step) :
    (UiDesign.execSteps l).2 = UiDesign.stepsOk l := by
  induction l with
  | nil => rfl
  | cons s r ih =>
    cases s with
    | emit e => simpa [UiDesign.execSteps, UiDesign.stepsOk] using ih
    | emitIf c e => simpa [UiDesign.execSteps, UiDesign.stepsOk] using ih
    | emitEither c a b => simpa [UiDesign.execSteps, UiDesign.stepsOk] using ih
    | check c => cases c <;> simp [UiDesign.execSteps, UiDesign.stepsOk, ih]

theorem stepsOk_steps (env : UiDesign.Env) (ts : String) :
    UiDesign.stepsOk (UiDesign.steps env ts) = UiDesign.assertsHold env := by
  simp [UiDesign.steps, UiDesign.stepsOk, UiDesign.assertsHold]

/-! Claim theorems. -/

/-- C1: in the per-page check routine, every device/page pair yields
exactly one horizontal-scroll record, which passes exactly when the
measured body scroll width is at most the viewport width plus the
fixed 10 pixel tolerance; a violation yields exactly one failed scroll
record for the pair, and a full run carries exactly one scroll record
per pair (36 in total). -/
theorem scroll_check_per_pair (d : String) (sz : Responsive.Size)
    (pg : Responsive.PageSpec) (st : Responsive.PageState) (ts : String)
    (env : Responsive.Env) :
    ((Responsive.checkPage d sz pg st ts).filter Responsive.isScrollCheck
        = [Responsive.Event.scrollCheck (decide (st.scrollWidth ≤ sz.width + 10))
            st.scrollWidth sz.width])
    ∧ ((Responsive.checkPage d sz pg st ts).countP Responsive.isScrollFail
        = if sz.width + 10 < st.scrollWidth then 1 else 0)
    ∧ ((Responsive.runEvents env ts).countP Responsive.isScrollCheck = 36) := by
  refine ⟨?_, ?_, runEvents_scroll_count env ts⟩
  · by_cases hsc : sz.width + 10 < st.scrollWidth
    · have hd : decide (st.scrollWidth ≤ sz.width + 10) = false :=
        decide_eq_false (by omega)
      simp [Responsive.checkPage, List.filter_append, filter_ite_one, hsc,
        Responsive.isScrollCheck, hd, List.filter_cons]
    · have hd : decide (st.scrollWidth ≤ sz.width + 10) = true :=
        decide_eq_true (by omega)
      simp [Responsive.checkPage, List.filter_append, filter_ite_one, hsc,
        Responsive.isScrollCheck, hd, List.filter_cons]
  · by_cases hsc : sz.width + 10 < st.scrollWidth <;>
      simp [Responsive.checkPage, List.countP_append, countP_ite_one, hsc,
        Responsive.isScrollFail, List.countP_cons]

/-- C4: the responsive run iterates the matrix with the device loop
outer and the page loop inner, invoking the per-page routine once per
pair: the visit banners of a full run are exactly the device-major
list of the 36 pairs, the run takes exactly 36 screenshots, and the
final summary reports 6 devices, 6 pages and 36 screenshots. -/
theorem matrix_iteration (env : Responsive.Env) (ts : String) :
    ((Responsive.runResponsive env ts).filterMap Responsive.visitOf
        = Responsive.DEVICE_SIZES.flatMap fun dv =>
            Responsive.PAGES_TO_TEST.map fun pg => (dv.1, pg.name))
    ∧ ((Responsive.runResponsive env ts).countP Responsive.isShot = 36)
    ∧ Responsive.summary = (6, 6, 36) := by
  refine ⟨?_, ?_, rfl⟩
  · have h := runEvents_visits env ts
    cases henv : env.loginOk <;>
      simp [Responsive.runResponsive, Responsive.loginEvents, henv,
        List.filterMap_append, Responsive.visitOf, h]
  · have h := runEvents_shot_count env ts
    cases henv : env.loginOk <;>
      simp [Responsive.runResponsive, Responsive.loginEvents, henv,
        List.countP_append, Responsive.isShot, h]

/-- C2: the aggregate script exits with status 0 exactly when every
recorded check passed, and its only other exit status is 1. -/
theorem aggregate_exit_code (env : Frontend.Env) :
    (Frontend.exitCode env = 0 ↔ (Frontend.runResults env).all (fun r => r.passed) = true)
    ∧ (Frontend.exitCode env = 0 ∨ Frontend.exitCode env = 1) := by
  have hiff : (((Frontend.runResults env).filter fun r => r.passed).length
        = (Frontend.runResults env).length)
      ↔ ((Frontend.runResults env).all fun r => r.passed) = true := by
    simp [List.filter_length_eq_length, List.all_eq_true]
  constructor
  · constructor
    · intro h0
      by_contra hall
      have hne : ((Frontend.runResults env).filter fun r => r.passed).length
          ≠ (Frontend.runResults env).length := fun he => hall (hiff.mp he)
      have hb : (((Frontend.runResults env).filter fun r => r.passed).length
          == (Frontend.runResults env).length) = false := by
        simpa using hne
      simp [Frontend.exitCode, hb] at h0
    · intro hall
      have hc := hiff.mpr hall
      simp [Frontend.exitCode, hc]
  · by_cases hc : ((Frontend.runResults env).filter fun r => r.passed).length
        = (Frontend.runResults env).length
    · left
      simp [Frontend.exitCode, hc]
    · right
      have hb : (((Frontend.runResults env).filter fun r => r.passed).length
          == (Frontend.runResults env).length) = false := by
        simpa using hc
      simp [Frontend.exitCode, hb]

/-- C5: when the health endpoint answers any status other than 200,
such as 503, the API proxy check records false, and the remaining
recorded results are identical whatever the health endpoint answers. -/
theorem health_proxy_isolated (env : Frontend.Env) (s : Nat)
    (hhs : env.healthStatus = some s) (hs : s ≠ 200) (hc : env.crashAt = none) :
    Frontend.resultFor "API 代理" (Frontend.runResults env) = some false
    ∧ ∀ hs' : Option Nat,
        ((Frontend.runResults { env with healthStatus := hs' }).filter
            fun r => r.label != "API 代理")
          = ((Frontend.runResults env).filter fun r => r.label != "API 代理") := by
  have e1 := runResults_of_no_crash env hc
  constructor
  · rw [e1]
    simp [Frontend.resultFor, List.find?_cons, hhs, hs]
  · intro hs'
    rw [runResults_of_no_crash { env with healthStatus := hs' } hc, e1]
    simp [List.filter_cons]

/-- C5 witness: a concrete healthy environment whose health endpoint
answers 503. -/
theorem health_proxy_isolated_witness :
    Frontend.resultFor "API 代理" (Frontend.runResults sickFEnv) = some false
    ∧ ((Frontend.runResults { sickFEnv with healthStatus := some 200 }).filter
          fun r => r.label != "API 代理")
        = ((Frontend.runResults sickFEnv).filter fun r => r.label != "API 代理") := by
  have h := health_proxy_isolated sickFEnv 503 rfl (by decide) rfl
  exact ⟨h.1, h.2 (some 200)⟩

/-- C7: an unhandled exception at any point of the aggregate try block
is caught at the top level: the run still closes the browser, records
the failure entry, and exits with status 1. -/
theorem infra_error_top_level (env : Frontend.Env) (k : Nat)
    (h : env.crashAt = some k) :
    Frontend.browserClosed env = true
    ∧ Frontend.exitCode env = 1
    ∧ CheckResult.mk "测试执行" false ∈ Frontend.runResults env := by
  have hrun : Frontend.runResults env
      = ((Frontend.allSteps env).take (k - 1)).flatten ++ [⟨"测试执行", false⟩] := by
    simp [Frontend.runResults, h]
  have hmem : CheckResult.mk "测试执行" false ∈ Frontend.runResults env := by
    rw [hrun]; exact List.mem_append_right _ (by simp)
  refine ⟨rfl, ?_, hmem⟩
  unfold Frontend.exitCode
  have hne : ((Frontend.runResults env).filter fun r => r.passed).length
      ≠ (Frontend.runResults env).length := by
    intro he
    have := List.filter_length_eq_length.mp he _ hmem
    simp at this
  have hb : (((Frontend.runResults env).filter fun r => r.passed).length
      == (Frontend.runResults env).length) = false := by
    simpa using hne
  simp [hb]

/-- C7 witness: a concrete environment whose second test raises. -/
theorem infra_error_top_level_witness :
    Frontend.browserClosed crashFEnv = true
    ∧ Frontend.exitCode crashFEnv = 1
    ∧ CheckResult.mk "测试执行" false ∈ Frontend.runResults crashFEnv :=
  infra_error_top_level crashFEnv 2 rfl

/-- C10: the console listener registered before the first navigation
accumulates errors across the whole run, so the JavaScript check
records the emptiness of the concatenation of the errors of every
phase, and records false exactly when some phase emitted an error. -/
theorem console_error_accumulation (env : Frontend.Env) (hc : env.crashAt = none) :
    Frontend.resultFor "JavaScript 无错误" (Frontend.runResults env)
        = some ((env.gotoErrors ++ env.mobileErrors ++ env.reloadErrors).isEmpty)
    ∧ (Frontend.resultFor "JavaScript 无错误" (Frontend.runResults env) = some false
        ↔ (env.gotoErrors ≠ [] ∨ env.mobileErrors ≠ [] ∨ env.reloadErrors ≠ [])) := by
  have e1 := runResults_of_no_crash env hc
  have h1 : Frontend.resultFor "JavaScript 无错误" (Frontend.runResults env)
      = some ((env.gotoErrors ++ env.mobileErrors ++ env.reloadErrors).isEmpty) := by
    rw [e1]
    simp [Frontend.resultFor, List.find?_cons]
  refine ⟨h1, ?_⟩
  rw [h1]
  constructor
  · intro h
    have h2 : (env.gotoErrors ++ env.mobileErrors ++ env.reloadErrors).isEmpty = false := by
      simpa using h
    have h3 : env.gotoErrors ++ env.mobileErrors ++ env.reloadErrors ≠ [] := by
      simpa [List.isEmpty_iff] using h2
    by_contra hcon
    push_neg at hcon
    exact h3 (by simp [hcon.1, hcon.2.1, hcon.2.2])
  · intro h
    have h3 : env.gotoErrors ++ env.mobileErrors ++ env.reloadErrors ≠ [] := by
      intro hnil
      rw [List.append_eq_nil] at hnil
      rcases hnil with ⟨h12, h3a⟩
      rw [List.append_eq_nil] at h12
      rcases h12 with ⟨h1a, h2a⟩
      rcases h with h | h | h <;> contradiction
    cases hE : (env.gotoErrors ++ env.mobileErrors ++ env.reloadErrors).isEmpty with
    | false => simp
    | true => exact absurd (List.isEmpty_iff.mp hE) h3

/-- C10 witness: one console error during the first navigation already
flips the final JavaScript check. -/
theorem console_error_accumulation_witness :
    Frontend.resultFor "JavaScript 无错误" (Frontend.runResults errFEnv) = some false := by
  have h := console_error_accumulation errFEnv rfl
  exact h.2.mpr (Or.inl (by simp [errFEnv]))

/-! String helpers for the remaining claims. -/

theorem isPrefixOf_self_append (n rest : List Char) : n.isPrefixOf (n ++ rest) = true := by
  induction n with
  | nil => simp [List.isPrefixOf]
  | cons c t ih => simp [List.isPrefixOf, ih]

theorem listSub_nil_needle (hay : List Char) : listSub [] hay = true := by
  cases hay <;> simp [listSub, List.isPrefixOf]

theorem listSub_self_append (n rest : List Char) : listSub n (n ++ rest) = true := by
  cases n with
  | nil => simpa using listSub_nil_needle rest
  | cons c t => simp [listSub, isPrefixOf_self_append]

theorem listSub_cons (n hay : List Char) (c : Char) (h : listSub n hay = true) :
    listSub n (c :: hay) = true := by
  simp [listSub, h]

theorem listSub_append_left (a n hay : List Char) (h : listSub n hay = true) :
    listSub n (a ++ hay) = true := by
  induction a with
  | nil => simpa using h
  | cons c t ih => simpa [List.cons_append] using listSub_cons n (t ++ hay) c ih

theorem str_toList_append (s t : String) : (s ++ t).toList = s.toList ++ t.toList :=
  String.data_append s t

theorem strContains_self_append (s b : String) : strContains (s ++ b) s = true := by
  unfold strContains
  rw [str_toList_append]
  exact listSub_self_append _ _

theorem strContains_append_left (a b s : String) (h : strContains b s = true) :
    strContains (a ++ b) s = true := by
  unfold strContains at h ⊢
  rw [str_toList_append]
  exact listSub_append_left _ _ _ h

theorem screenshotName_assoc (d p ts : String) :
    Responsive.screenshotName d p ts
      = "responsive_" ++ (underscoreSpaces d ++ ("_" ++ (p ++ ("_" ++ (ts ++ ".png"))))) := by
  simp [Responsive.screenshotName, String.append_assoc]

theorem digitChar_isDigit (n : Nat) : (digitChar n).isDigit = true := by
  unfold digitChar
  have hk : n % 10 < 10 := Nat.mod_lt _ (by decide)
  set k := n % 10 with hkdef
  interval_cases k <;> decide

theorem undersized_eq (w h : Nat) :
    (decide (w < 44) || decide (h < 44)) = !(decide (44 ≤ w) && decide (44 ≤ h)) := by
  have e1 : decide (44 ≤ w) = !decide (w < 44) := by
    by_cases hx : w < 44
    · simp [hx, Nat.not_le.mpr hx]
    · simp [hx, Nat.not_lt.mp hx]
  have e2 : decide (44 ≤ h) = !decide (h < 44) := by
    by_cases hx : h < 44
    · simp [hx, Nat.not_le.mpr hx]
    · simp [hx, Nat.not_lt.mp hx]
  rw [e1, e2]
  cases decide (w < 44) <;> cases decide (h < 44) <;> rfl

/-- C3: a login that does not reach the authenticated route within the
timeout is caught by the local handler in both flashsell-web scripts:
the responsive run records the warning and still performs the whole
36 pair matrix, and the UI-design run records the warning and
proceeds to the following home-page checks. -/
theorem login_timeout_nonfatal (renv : Responsive.Env) (ts : String)
    (uenv : UiDesign.Env) (uts : String)
    (hr : renv.loginOk = false) (hu : uenv.loginOk = false)
    (h1 : (strContains uenv.bgColor "rgb(15, 23, 42)" || strContains uenv.bgColor "slate") = true)
    (h2 : uenv.formCardVisible = true) (h3 : uenv.logoVisible = true) :
    (Responsive.Event.loginWarning ∈ Responsive.runResponsive renv ts)
    ∧ ((Responsive.runResponsive renv ts).countP Responsive.isShot = 36)
    ∧ (UiDesign.UEvent.loginWarning ∈ (UiDesign.uiRun uenv uts).1)
    ∧ (UiDesign.UEvent.homeCards uenv.homeCardCount ∈ (UiDesign.uiRun uenv uts).1) := by
  refine ⟨?_, ?_, ?_, ?_⟩
  · simp [Responsive.runResponsive, Responsive.loginEvents, hr]
  · have h := runEvents_shot_count renv ts
    simp [Responsive.runResponsive, Responsive.loginEvents, hr, List.countP_append,
      Responsive.isShot, h]
  · cases hhh : uenv.homeHeaderVisible <;>
      simp [UiDesign.uiRun, UiDesign.steps, UiDesign.execSteps, h1, h2, h3, hu, hhh]
  · cases hhh : uenv.homeHeaderVisible <;>
      simp [UiDesign.uiRun, UiDesign.steps, UiDesign.execSteps, h1, h2, h3, hu, hhh]

/-- C3 witness: concrete environments with a failed login. -/
theorem login_timeout_nonfatal_witness :
    (Responsive.Event.loginWarning ∈ Responsive.runResponsive sampleREnv "T")
    ∧ ((Responsive.runResponsive sampleREnv "T").countP Responsive.isShot = 36)
    ∧ (UiDesign.UEvent.loginWarning ∈ (UiDesign.uiRun sampleUEnv "T").1)
    ∧ (UiDesign.UEvent.homeCards sampleUEnv.homeCardCount ∈ (UiDesign.uiRun sampleUEnv "T").1) :=
  login_timeout_nonfatal sampleREnv "T" sampleUEnv "T" rfl rfl (by decide) rfl rfl

/-- C6: for viewports of width at most 480 the per-page routine emits
exactly one touch-target record, whose count is the number of
undersized controls among the first five buttons that have a bounding
box (a control is undersized unless its width and height are both at
least 44, with a missing field read as 0); the count depends only on
the first five buttons, and the record never aborts the routine: its
last action is still the screenshot. -/
theorem touch_target_sampling (d : String) (sz : Responsive.Size)
    (pg : Responsive.PageSpec) (st : Responsive.PageState) (ts : String)
    (hw : sz.width ≤ 480) :
    ((Responsive.checkPage d sz pg st ts).filter Responsive.isTouch
        = [Responsive.Event.touchTarget (Responsive.smallButtons st.buttons)])
    ∧ (Responsive.smallButtons st.buttons
        = (((st.buttons.take 5).filterMap id).filter fun b =>
            !(decide (44 ≤ b.width.getD 0) && decide (44 ≤ b.height.getD 0))).length)
    ∧ (Responsive.smallButtons st.buttons = Responsive.smallButtons (st.buttons.take 5))
    ∧ ((Responsive.checkPage d sz pg st ts).getLast?
        = some (Responsive.Event.shot (Responsive.screenshotName d pg.name ts))) := by
  refine ⟨?_, ?_, ?_, ?_⟩
  · by_cases hsc : sz.width + 10 < st.scrollWidth <;>
      simp [Responsive.checkPage, List.filter_append, filter_ite_one, hsc, hw,
        Responsive.isTouch, List.filter_cons]
  · unfold Responsive.smallButtons
    congr 1
    apply List.filter_congr
    intro b _
    exact undersized_eq _ _
  · simp [Responsive.smallButtons, List.take_take]
  · have hre : Responsive.checkPage d sz pg st ts
        = ([Responsive.Event.visit d pg.name]
          ++ [if sz.width + 10 < st.scrollWidth
              then Responsive.Event.scrollCheck false st.scrollWidth sz.width
              else Responsive.Event.scrollCheck true st.scrollWidth sz.width]
          ++ (if st.sidebarVisible then [Responsive.Event.navSeen (sz.width < 768)] else [])
          ++ (if st.mainVisible then [Responsive.Event.mainSeen st.mainWidth] else [])
          ++ (if 0 < st.cardCount then [Responsive.Event.cardsSeen st.cardCount st.cardWidth] else [])
          ++ (if sz.width ≤ 480
              then [Responsive.Event.touchTarget (Responsive.smallButtons st.buttons)] else []))
          ++ [Responsive.Event.shot (Responsive.screenshotName d pg.name ts)] := by
      simp [Responsive.checkPage, List.append_assoc]
    rw [hre, List.getLast?_concat]

/-- C6 witness: a mobile viewport and a concrete button list with one
undersized control. -/
theorem touch_target_sampling_witness :
    ((375 : Nat) ≤ 480)
    ∧ ((Responsive.checkPage "iPhone SE" ⟨375, 667⟩ ⟨"/", "Home"⟩ samplePage "T").filter
          Responsive.isTouch
        = [Responsive.Event.touchTarget (Responsive.smallButtons samplePage.buttons)])
    ∧ Responsive.smallButtons samplePage.buttons = 1
    ∧ ((Responsive.checkPage "iPhone SE" ⟨375, 667⟩ ⟨"/", "Home"⟩ samplePage "T").getLast?
        = some (Responsive.Event.shot (Responsive.screenshotName "iPhone SE" "Home" "T"))) := by
  have h := touch_target_sampling "iPhone SE" ⟨375, 667⟩ ⟨"/", "Home"⟩ samplePage "T" (by decide)
  exact ⟨by decide, h.1, by decide, h.2.2.2⟩

/-- C8 counterexample: in test_ui_design.py the browser close is the
last straight-line statement of the run, so a failing hard assert
(here a light background colour) ends the run with the close never
executed, refuting the claim for every script. -/
theorem ui_close_skipped_on_assert_failure :
    (UiDesign.uiRun { sampleUEnv with bgColor := "rgb(255, 255, 255)" } "T").2 = false := by
  decide

/-- C8 amended: the aggregate script closes the browser on every exit
path through its finally clause, while in test_ui_design.py the close
is reached exactly when every hard assert condition holds, and is
skipped whenever one fails. -/
theorem browser_close_paths :
    (∀ env : Frontend.Env, Frontend.browserClosed env = true)
    ∧ (∀ (env : UiDesign.Env) (ts : String),
        (UiDesign.uiRun env ts).2 = UiDesign.assertsHold env) := by
  refine ⟨fun _ => rfl, fun env ts => ?_⟩
  show (UiDesign.execSteps (UiDesign.steps env ts)).2 = UiDesign.assertsHold env
  rw [execSteps_completed, stepsOk_steps]

/-- C9 counterexample: the screenshot name for the device iPhone SE on
the Home page does not contain the literal device label, because the
space of the label is replaced by an underscore in the file name. -/
theorem screenshot_label_not_literal :
    (("iPhone SE", Responsive.Size.mk 375 667) ∈ Responsive.DEVICE_SIZES)
    ∧ strContains
        (Responsive.screenshotName "iPhone SE" "Home" (strftimeTs 2025 1 2 3 4 5))
        "iPhone SE" = false := by
  refine ⟨?_, ?_⟩
  · decide
  · decide

theorem strftime_matches_pattern (y mo d h mi s : Nat) :
    isTsPattern (strftimeTs y mo d h mi s) = true := by
  simp [isTsPattern, strftimeTs, List.enum, List.enumFrom, digitChar_isDigit,
    String.length, String.toList]

/-- C9 amended: every device/page pair of a run produces exactly one
screenshot, whose name contains the device label with spaces replaced
by underscores, the page label and the run timestamp; the timestamp
produced by the modelled strftime call matches YYYYMMDD_HHMMSS; and
two runs whose fifteen character timestamps differ share no screenshot
name.  (The literal device label itself need not occur in the name:
its spaces are replaced, see the counterexample.) -/
theorem screenshot_naming (env : Responsive.Env) (d p d2 p2 ts ts2 : String)
    (y mo dd hh mi ss : Nat)
    (hl : ts.length = 15) (hl2 : ts2.length = 15) (hne : ts ≠ ts2) :
    ((Responsive.runEvents env ts).filterMap Responsive.shotOf
        = Responsive.DEVICE_SIZES.flatMap fun dv =>
            Responsive.PAGES_TO_TEST.map fun pg => Responsive.screenshotName dv.1 pg.name ts)
    ∧ strContains (Responsive.screenshotName d p ts) (underscoreSpaces d) = true
    ∧ strContains (Responsive.screenshotName d p ts) p = true
    ∧ strContains (Responsive.screenshotName d p ts) ts = true
    ∧ isTsPattern (strftimeTs y mo dd hh mi ss) = true
    ∧ Responsive.screenshotName d p ts ≠ Responsive.screenshotName d2 p2 ts2 := by
  refine ⟨runEvents_shots env ts, ?_, ?_, ?_, strftime_matches_pattern y mo dd hh mi ss, ?_⟩
  · rw [screenshotName_assoc]
    exact strContains_append_left _ _ _ (strContains_self_append _ _)
  · rw [screenshotName_assoc]
    exact strContains_append_left _ _ _ (strContains_append_left _ _ _
      (strContains_append_left _ _ _ (strContains_self_append _ _)))
  · rw [screenshotName_assoc]
    exact strContains_append_left _ _ _ (strContains_append_left _ _ _
      (strContains_append_left _ _ _ (strContains_append_left _ _ _
        (strContains_append_left _ _ _ (strContains_self_append _ _)))))
  · intro he
    apply hne
    have hd : (Responsive.screenshotName d p ts).data
        = (Responsive.screenshotName d2 p2 ts2).data := congrArg String.data he
    have e1 : (Responsive.screenshotName d p ts).data
        = ("responsive_".data ++ ((underscoreSpaces d).data ++ ("_".data ++ (p.data ++ "_".data))))
          ++ (ts.data ++ ".png".data) := by
      simp [Responsive.screenshotName, String.data_append, List.append_assoc]
    have e2 : (Responsive.screenshotName d2 p2 ts2).data
        = ("responsive_".data ++ ((underscoreSpaces d2).data ++ ("_".data ++ (p2.data ++ "_".data))))
          ++ (ts2.data ++ ".png".data) := by
      simp [Responsive.screenshotName, String.data_append, List.append_assoc]
    rw [e1, e2] at hd
    have hts15 : ts.data.length = 15 := hl
    have hts15b : ts2.data.length = 15 := hl2
    have hlen : (ts.data ++ ".png".data).length = (ts2.data ++ ".png".data).length := by
      simp [List.length_append, hts15, hts15b]
    have hsuf : ts.data ++ ".png".data = ts2.data ++ ".png".data :=
      List.append_inj_right' hd hlen
    have hdd : ts.data = ts2.data := (List.append_inj' hsuf rfl).1
    exact String.ext hdd

/-- C9 witness: two concrete timestamps one second apart give distinct
names, which contain the underscored device label and the timestamp. -/
theorem screenshot_naming_witness :
    (strftimeTs 2025 1 2 3 4 5).length = 15
    ∧ strContains (Responsive.screenshotName "iPhone SE" "Home" (strftimeTs 2025 1 2 3 4 5))
        (underscoreSpaces "iPhone SE") = true
    ∧ strContains (Responsive.screenshotName "iPhone SE" "Home" (strftimeTs 2025 1 2 3 4 5))
        (strftimeTs 2025 1 2 3 4 5) = true
    ∧ isTsPattern (strftimeTs 2025 1 2 3 4 5) = true
    ∧ Responsive.screenshotName "iPhone SE" "Home" (strftimeTs 2025 1 2 3 4 5)
        ≠ Responsive.screenshotName "iPad" "Home" (strftimeTs 2025 1 2 3 4 6) := by
  have h := screenshot_naming sampleREnv "iPhone SE" "Home" "iPad" "Home"
    (strftimeTs 2025 1 2 3 4 5) (strftimeTs 2025 1 2 3 4 6) 2025 1 2 3 4 5
    (by decide) (by decide) (by decide)
  exact ⟨by decide, h.2.1, h.2.2.2.1, h.2.2.2.2.1, h.2.2.2.2.2⟩
